import Mathlib

/-!
Verification development for the Cloud-Cost-Knowledge-Base RAG repository.

The Python sources under `src/graph` (schema setup and ingestion) and
`src/rag/pipeline.py` (intent extraction, vector search, graph search,
context assembly, orchestration) are embedded shallowly below.  External
capabilities (the Neo4j store, `json.loads`, `hashlib.md5`, the embedding
model and the LLM backend) are modelled as explicit parameters or as
abstract row lists, exactly at the boundaries where the Python code calls
out of the repository.
-/

namespace CloudCost

/-! ### Basic string machinery

Python regular-expression matching is used by the pipeline only in two
restricted shapes: plain literal substrings (all `INTENT_PATTERNS` entries)
and alternations of word-bounded literals `\bLIT\b` (all `ENTITY_PATTERNS`
alternatives, each literal beginning and ending with a word character).
We model exactly those two shapes over `List Char`. -/

/-- Word characters, i.e. the class of Python regexes restricted to ASCII: letters, digits, underscore. -/
def isWordChar (c : Char) : Bool := c.isAlphanum || c == '_'

/-- The needle occurs in the haystack starting at position `i`. -/
def substrAt (needle hay : List Char) (i : Nat) : Bool :=
  needle.isPrefixOf (hay.drop i)

/-- Model of literal-pattern search, Python re.search of a literal pattern: the needle occurs somewhere. -/
def containsSub (needle hay : List Char) : Bool :=
  (List.range (hay.length + 1)).any (substrAt needle hay)

/-- Occurrence at `i` with word boundaries on both sides, for needles that
begin and end with word characters (the shape of every entity pattern). -/
def wordAt (needle hay : List Char) (i : Nat) : Bool :=
  substrAt needle hay i
    && (i == 0 || !isWordChar (hay.getD (i - 1) ' '))
    && (decide (hay.length ≤ i + needle.length)
        || !isWordChar (hay.getD (i + needle.length) ' '))

/-- Model of word-bounded search, Python re.search of `\bLIT\b`: a word-bounded occurrence somewhere. -/
def containsWord (needle hay : List Char) : Bool :=
  (List.range (hay.length + 1)).any (wordAt needle hay)

/-- The single-quote character, built by code point to keep source quoting
uniform. -/
def sqc : Char := Char.ofNat 39

/-- The double-quote character. -/
def dqc : Char := Char.ofNat 34

/-- A single-quote string. -/
def sq : String := String.mk [sqc]

/-- Python `str.lower()` (ASCII case folding, which is all that query
strings and patterns use). -/
def lower (s : String) : String := String.mk (s.data.map Char.toLower)

/-- Python `str.upper()`. -/
def upper (s : String) : String := String.mk (s.data.map Char.toUpper)

/-- Python `str.strip()`: whitespace removed from both ends. -/
def strip (s : String) : String :=
  String.mk
    (((s.data.dropWhile Char.isWhitespace).reverse.dropWhile
        Char.isWhitespace).reverse)

/-- Python slicing `s[:n]`. -/
def sliceTo (n : Nat) (s : String) : String := String.mk (s.data.take n)

/-- Python `s.replace(old, new)` for single-character `old`/`new` (the only
form the sources use: quote normalization in `parse_tags`). -/
def replaceChar (a b : Char) (s : String) : String :=
  String.mk (s.data.map fun c => if c == a then b else c)

/-- Python `sep.join(items)`. -/
def joinSep (sep : String) : List String → String
  | [] => ""
  | [x] => x
  | x :: xs => x ++ sep ++ joinSep sep xs

/-! ### Python scalar values

`ingest.py` receives pandas rows as dictionaries whose values are scalars:
strings, numbers, booleans, `None`, or the float `NaN` (pandas' marker for
a missing cell).  Python floats are modelled as rationals. -/

inductive PyVal where
  | none
  | nan
  | str (s : String)
  | int (n : Int)
  | float (q : Rat)
  | bool (b : Bool)
deriving DecidableEq

/-- Python truthiness of a scalar (`if p` in `make_id`, `if not tags_str`
in `parse_tags`).  Note that `NaN` is truthy in Python. -/
def isTruthy : PyVal → Bool
  | .none => false
  | .nan => true
  | .str s => s != ""
  | .int n => n != 0
  | .float q => q != 0
  | .bool b => b

/-- Decimal rendering of a rational to `d` places.  Models Python's
fixed-point `:.Nf` formatting; ties round half-up rather than with IEEE
semantics, and no claim below depends on the rendered digits. -/
def fmtFixed (d : Nat) (q : Rat) : String :=
  let n : Nat := (q.num.natAbs * 10 ^ d * 2 + q.den) / (2 * q.den)
  let base : Nat := 10 ^ d
  let ip := n / base
  let fp := n % base
  let fpStr := toString fp
  let pad := String.mk (List.replicate (d - fpStr.length) '0')
  let sgn := if q.num < 0 then "-" else ""
  sgn ++ toString ip ++ "." ++ pad ++ fpStr

/-- Python `str()` on a scalar.  Floats are rendered decimally; no claim
depends on float rendering. -/
def pyStr : PyVal → String
  | .none => "None"
  | .nan => "nan"
  | .str s => s
  | .int n => toString n
  | .float q => fmtFixed 6 q
  | .bool b => if b then "True" else "False"

/-- Embedding of `safe_str` from `src/graph/ingest.py`: `None` for NaN / empty string /
`None`, otherwise `str(val).strip()`. -/
def safe_str : PyVal → Option String
  | .nan => Option.none
  | .none => Option.none
  | .str s => if s = "" then Option.none else some (strip s)
  | v => some (strip (pyStr v))

/-- Python's `a or b` for an optional string `a` and default `b`: the
default is used when `a` is `None` or empty (falsy). -/
def pyOrS (a : Option String) (b : String) : String :=
  match a with
  | some s => if s = "" then b else s
  | Option.none => b

/-- A Python float value: a finite value (held exactly, as a rational), a
signed infinity, or NaN.  `float()` of a string can produce all three. -/
inductive PyFloat where
  | finite (q : Rat)
  | inf (neg : Bool)
  | nan
deriving DecidableEq

/-- Python's `x >= 0.0` on a float: true for non-negative finite values
and `+inf`, false for negative values, `-inf`, and NaN (every IEEE
comparison with NaN is false). -/
def PyFloat.isNonNeg : PyFloat → Bool
  | .finite q => decide (0 ≤ q)
  | .inf neg => !neg
  | .nan => false

/-- A digit part of Python's float grammar: digits with single
underscores allowed strictly between digits.  Starting from an already
consumed first digit, returns the accumulated value, the digit count and
the unconsumed remainder (an underscore not followed by a digit is left
unconsumed, so trailing junk fails at the top level). -/
def digitPartAux : Nat → Nat → List Char → Nat × Nat × List Char
  | acc, cnt, [] => (acc, cnt, [])
  | acc, cnt, c :: cs =>
    if c.isDigit then digitPartAux (acc * 10 + (c.toNat - 48)) (cnt + 1) cs
    else if c = '_' then
      match cs with
      | d :: ds =>
          if d.isDigit then
            digitPartAux (acc * 10 + (d.toNat - 48)) (cnt + 1) ds
          else (acc, cnt, c :: cs)
      | [] => (acc, cnt, c :: cs)
    else (acc, cnt, c :: cs)

/-- A digit part (`digitpart` of the Python float grammar): at least one
digit, single underscores between digits. -/
def parseDigitPart : List Char → Option (Nat × Nat × List Char)
  | [] => Option.none
  | c :: cs =>
      if c.isDigit then some (digitPartAux (c.toNat - 48) 1 cs)
      else Option.none

/-- The unsigned mantissa of the Python float grammar:
`digitpart | digitpart "." digitpart? | "." digitpart`.  Returns the
mantissa as `a / 10 ^ k` together with the remainder. -/
def parseNumber (l : List Char) : Option (Nat × Nat × List Char) :=
  match parseDigitPart l with
  | some (ip, _, rest) =>
      match rest with
      | '.' :: rest2 =>
          match parseDigitPart rest2 with
          | some (fp, fcnt, rest3) =>
              some (ip * 10 ^ fcnt + fp, fcnt, rest3)
          | Option.none => some (ip, 0, rest2)
      | _ => some (ip, 0, rest)
  | Option.none =>
      match l with
      | '.' :: rest2 =>
          match parseDigitPart rest2 with
          | some (fp, fcnt, rest3) => some (fp, fcnt, rest3)
          | Option.none => Option.none
      | _ => Option.none

/-- The exponent of the Python float grammar:
`("e" | "E") sign? digitpart`. -/
def parseExponent (l : List Char) : Option (Int × List Char) :=
  match l with
  | c :: cs =>
      if c = 'e' ∨ c = 'E' then
        let core : Int × List Char :=
          match cs with
          | '+' :: t => (1, t)
          | '-' :: t => (-1, t)
          | _ => (1, cs)
        match parseDigitPart core.2 with
        | some (e, _, rest3) => some (core.1 * e, rest3)
        | Option.none => Option.none
      else Option.none
  | [] => Option.none

/-- The rational `sign * (a / 10 ^ k) * 10 ^ e`, assembled without `Rat`
arithmetic so that it evaluates in the kernel. -/
def ratOfSci (neg : Bool) (a k : Nat) (e : Int) : Rat :=
  let sgnA : Int := if neg then -(a : Int) else (a : Int)
  let d : Int := e - (k : Int)
  if 0 ≤ d then mkRat (sgnA * ((10 : Int) ^ d.toNat)) 1
  else mkRat sgnA (10 ^ (-d).toNat)

/-- Model of Python `float()` on a string: surrounding whitespace is
stripped; then an optional sign followed by either the case-insensitive
forms `inf`/`infinity`/`nan`, or a decimal mantissa (digit parts with
single underscores between digits, optional fraction) with an optional
exponent.  `none` exactly where `float()` raises `ValueError` (ASCII
forms; Python additionally accepts non-ASCII unicode digits, which
billing data does not contain). -/
def pyFloatOfString (s : String) : Option PyFloat :=
  let t := (strip s).data
  let core : Bool × List Char :=
    match t with
    | '-' :: rest => (true, rest)
    | '+' :: rest => (false, rest)
    | _ => (false, t)
  let neg := core.1
  let u := core.2
  let ul := u.map Char.toLower
  if ul = "inf".data ∨ ul = "infinity".data then some (.inf neg)
  else if ul = "nan".data then some .nan
  else
    match parseNumber u with
    | some (a, k, rest) =>
        match rest with
        | [] => some (.finite (ratOfSci neg a k 0))
        | _ =>
            match parseExponent rest with
            | some (e, rest2) =>
                if rest2 = [] then some (.finite (ratOfSci neg a k e))
                else Option.none
            | Option.none => Option.none
    | Option.none => Option.none

/-- Embedding of `safe_float` from `src/graph/ingest.py`: `0.0` for NaN
cells and for values `float()` rejects (`None`, non-numeric strings);
numeric values convert unchanged — including negative numbers, negative
scientific-notation strings, and the non-finite values `float()` yields
on `inf`/`nan` strings. -/
def safe_float : PyVal → PyFloat
  | .nan => .finite 0
  | .none => .finite 0
  | .str s => (pyFloatOfString s).getD (.finite 0)
  | .int n => .finite (n : Rat)
  | .float q => .finite q
  | .bool b => .finite (if b then 1 else 0)

/-- Python fixed-point formatting `:.Nf` of a float: finite values are
rendered decimally, and the non-finite values render as `inf`, `-inf`
and `nan` (as Python's format does). -/
def fmtPyFloat (d : Nat) : PyFloat → String
  | .finite q => fmtFixed d q
  | .inf neg => if neg then "-inf" else "inf"
  | .nan => "nan"

/-- Embedding of `make_id` from `src/graph/ingest.py`, with `hashlib.md5(...).hexdigest()`
abstracted as the parameter `md5hex`: joins the truthy parts with a pipe
and keeps the first 16 characters of the hex digest. -/
def make_id (md5hex : String → String) (parts : List PyVal) : String :=
  sliceTo 16 (md5hex (joinSep "|" ((parts.filter isTruthy).map pyStr)))

/-! ### Tag payload parsing -/

/-- A decoded JSON value, as returned by `json.loads` (abstracted as a
parameter below: the `json` module is outside the repository). -/
inductive Json where
  | obj (m : List (String × Json))
  | arr (l : List Json)
  | str (s : String)
  | num (q : Rat)
  | bool (b : Bool)
  | null

/-- Embedding of `parse_tags` from `src/graph/ingest.py`.  `jloads` models `json.loads`,
returning `.error` where the Python function would raise
`JSONDecodeError`/`ValueError`.  Falsy or NaN payloads yield `{}`; a string
payload has its single quotes replaced by double quotes and is decoded; any
non-dict decode result, decode failure, or non-string payload yields `{}`. -/
def parse_tags (jloads : String → Except Unit Json) (v : PyVal) :
    List (String × Json) :=
  if !isTruthy v then []
  else if v = .nan then []
  else
    match v with
    | .str s =>
        match jloads (replaceChar sqc dqc s) with
        | .ok (.obj m) => m
        | .ok _ => []
        | .error _ => []
    | _ => []

/-! ### Intent and entity extraction (`src/rag/pipeline.py`)

Every `INTENT_PATTERNS` entry is a literal substring pattern and the query
is lowercased first; every `ENTITY_PATTERNS` alternative is a word-bounded
literal matched case-insensitively (modelled by lowercasing both sides). -/

/-- The table `INTENT_PATTERNS`: intent tag to its literal substring patterns. -/
def INTENT_PATTERNS : List (String × List String) :=
  [("cost_analysis",
    ["cost", "spend", "expensive", "price", "billing", "billed",
     "effective", "total"]),
   ("service_comparison",
    ["compare", "vs", "versus", "difference", "equivalent", "similar"]),
   ("commitment_analysis",
    ["commitment", "reservation", "savings plan", "utilization", "unused",
     "reserved"]),
   ("optimization", ["optimiz", "reduc", "sav", "rightsiz", "recommend"]),
   ("schema_query",
    ["focus column", "standard", "vendor", "x_", "spec", "definition",
     "what is", "explain"]),
   ("tag_query", ["tag", "application", "environment", "production"]),
   ("allocation_query", ["alloc", "shared cost", "proportion", "split"])]

/-- The table `ENTITY_PATTERNS`: entity flag to the word-bounded alternatives of its
regex. -/
def ENTITY_PATTERNS : List (String × List String) :=
  [("aws", ["AWS", "Amazon", "EC2", "S3", "Lambda", "RDS"]),
   ("azure", ["Azure", "Microsoft", "Blob", "Virtual Machine"]),
   ("compute", ["EC2", "Virtual Machine", "compute", "instance"]),
   ("storage", ["S3", "Blob", "storage", "EBS"]),
   ("production", ["production", "prod"]),
   ("charge_purchase", ["purchase", "commitment", "reservation"])]

/-- Embedding of `extract_intent`: lowercase the query, keep every intent one of whose
patterns occurs as a substring, fall back to `["general"]`. -/
def extract_intent (query : String) : List String :=
  let q := (lower query).data
  let intents :=
    (INTENT_PATTERNS.filter fun kp =>
      kp.2.any fun p => containsSub p.data q).map Prod.fst
  if intents.isEmpty then ["general"] else intents

/-- Embedding of `extract_entities`: the dict `{k: True for k, p in ENTITY_PATTERNS if
re.search(p, query, re.IGNORECASE)}`, as an association list. -/
def extract_entities (query : String) : List (String × Bool) :=
  (ENTITY_PATTERNS.filter fun kp =>
    kp.2.any fun p => containsWord (lower p).data (lower query).data).map
    fun kp => (kp.1, true)

/-- Lookup `entities.get(k)` with Python's `None`-is-falsy default. -/
def entGet (entities : List (String × Bool)) (k : String) : Bool :=
  (entities.lookup k).getD false

/-! ### Cost-record construction (`src/graph/ingest.py`)

`create_cost_record_with_relationships` receives one pandas row as a dict;
the attribute map it writes onto the `CostRecord` node is embedded here.
A missing dict key makes `row.get(...)` return `None`, so every field of
`Row` defaults to `PyVal.none`; `_source` and `_tags` are written by the
loaders before ingestion. -/

structure Row where
  EffectiveCost : PyVal := .none
  BilledCost : PyVal := .none
  ListCost : PyVal := .none
  ContractedCost : PyVal := .none
  BillingCurrency : PyVal := .none
  ConsumedQuantity : PyVal := .none
  ConsumedUnit : PyVal := .none
  PricingQuantity : PyVal := .none
  PricingUnit : PyVal := .none
  ChargePeriodStart : PyVal := .none
  ChargePeriodEnd : PyVal := .none
  BillingAccountId : PyVal := .none
  ResourceId : PyVal := .none
  ServiceName : PyVal := .none
  ChargeCategory : PyVal := .none
  source : String := "unknown"
  tags : List (String × String) := []

/-- The attributes `create_cost_record_with_relationships` sets on the
`CostRecord` node. -/
structure CostRecordNode where
  recordId : String
  effectiveCost : PyFloat
  billedCost : PyFloat
  listCost : PyFloat
  contractedCost : PyFloat
  currency : String
  consumedQuantity : PyFloat
  consumedUnit : Option String
  pricingQuantity : PyFloat
  pricingUnit : Option String
  chargePeriodStart : Option String
  chargePeriodEnd : Option String
  source : String
  tagApplication : String
  tagEnvironment : String
  tagCostCentre : String
  description : String
deriving DecidableEq

/-- Lookup `tags_dict.get(k, tags_dict.get(k2, ""))` for the flattened tag
snapshot. -/
def tagGet (tags : List (String × String)) (k k2 : String) : String :=
  (tags.lookup k).getD ((tags.lookup k2).getD "")

/-- The `CostRecord` node written by
`create_cost_record_with_relationships` for `row` at position `idx`, with
`hashlib.md5` abstracted as `md5hex` (lines 358-409 of
`src/graph/ingest.py`). -/
def create_cost_record_props (md5hex : String → String) (row : Row)
    (idx : Nat) : CostRecordNode :=
  let source := row.source
  let record_id := make_id md5hex
    [.str source, .int idx, row.BillingAccountId, row.ChargePeriodStart,
     row.ResourceId]
  let tags_dict := row.tags
  let svc := (safe_str row.ServiceName).getD "None"
  let cat := (safe_str row.ChargeCategory).getD "None"
  let description :=
    upper source ++ " " ++ svc ++ " " ++ cat ++ " $"
      ++ fmtPyFloat 4 (safe_float row.EffectiveCost)
  { recordId := record_id
    effectiveCost := safe_float row.EffectiveCost
    billedCost := safe_float row.BilledCost
    listCost := safe_float row.ListCost
    contractedCost := safe_float row.ContractedCost
    currency := pyOrS (safe_str row.BillingCurrency) "USD"
    consumedQuantity := safe_float row.ConsumedQuantity
    consumedUnit := safe_str row.ConsumedUnit
    pricingQuantity := safe_float row.PricingQuantity
    pricingUnit := safe_str row.PricingUnit
    chargePeriodStart := safe_str row.ChargePeriodStart
    chargePeriodEnd := safe_str row.ChargePeriodEnd
    source := source
    tagApplication := tagGet tags_dict "application" "Application"
    tagEnvironment := tagGet tags_dict "environment" "Environment"
    tagCostCentre := tagGet tags_dict "cost_center" "CostCentre"
    description := description }

/-- A scalar that `safe_float` maps to a value satisfying `>= 0.0`: not a
negative number, not a negative numeric string (in any `float()` form,
scientific notation included), not a negative-infinity string, and not a
NaN string (NaN fails every `>=` comparison). -/
def cellNonNeg : PyVal → Bool
  | .int n => decide (0 ≤ n)
  | .float q => decide (0 ≤ q)
  | .str s =>
      match pyFloatOfString s with
      | some f => f.isNonNeg
      | Option.none => true
  | _ => true

/-! ### Retrieval results and the context assembler
(`src/rag/pipeline.py`)

A retrieval hit is a Python dict; the fields below carry the keys the
pipeline reads, with the defaults `dict.get` supplies when a key is
absent (vector hits carry no `path`, graph hits no `label`). -/

structure Result where
  source : String := ""
  path : String := ""
  label : String := ""
  text : Option String := Option.none
  score : Rat := 0
deriving DecidableEq

/-- The dedup key `(r.get("text") or "")[:100]`. -/
def key100 (r : Result) : String := sliceTo 100 (pyOrS r.text "")

/-- Python truthiness of `r.get("text")`. -/
def truthyText (r : Result) : Bool :=
  match r.text with
  | some t => t != ""
  | Option.none => false

/-- Stable insertion of `r` into a list already sorted by descending
score: `r` goes in front of the first strictly smaller score, after all
scores `≥` its own that precede it in the original order. -/
def insertDesc (r : Result) : List Result → List Result
  | [] => [r]
  | x :: xs => if r.score ≥ x.score then r :: x :: xs else x :: insertDesc r xs

/-- Python's stable `sorted(key=score, reverse=True)`; stable sorts agree
as functions, so insertion sort embeds `list.sort`/`sorted` faithfully. -/
def sortDesc : List Result → List Result
  | [] => []
  | x :: xs => insertDesc x (sortDesc xs)

/-- The assembler's dedup loop (lines 200-204): keep an entry when its
key is unseen *and* its text is truthy, recording the key only then. -/
def dedupAssemble : List Result → List String → List Result
  | [], _ => []
  | r :: rs, seen =>
    if !(seen.contains (key100 r)) && truthyText r then
      r :: dedupAssemble rs (key100 r :: seen)
    else dedupAssemble rs seen

/-- The entries `assemble_context` renders: concatenate, stable-sort by
descending score, dedup by 100-character key, truncate to 20. -/
def assembledEntries (vector_results graph_results : List Result) :
    List Result :=
  (dedupAssemble (sortDesc (vector_results ++ graph_results)) []).take 20

/-- One numbered context line (lines 207-214). -/
def renderEntry (i : Nat) (r : Result) : String :=
  let t := pyOrS r.text ""
  let src := upper (if r.source = "" then "unknown" else r.source)
  let prov :=
    "[" ++ src ++ "/" ++ r.label ++ " | " ++ r.path ++ " | relevance:"
      ++ fmtFixed 2 r.score ++ "]"
  toString i ++ ". " ++ prov ++ "\n   " ++ t

/-- Numbered rendering starting from 1 (Python `enumerate(..., 1)`). -/
def renderFrom (i : Nat) : List Result → List String
  | [] => []
  | r :: rs => renderEntry i r :: renderFrom (i + 1) rs

/-- Embedding of `assemble_context` from `src/rag/pipeline.py` (lines 197-215). -/
def assemble_context (vector_results graph_results : List Result) :
    String :=
  joinSep "\n\n" (renderFrom 1 (assembledEntries vector_results graph_results))

/-! ### Vector search (`src/rag/pipeline.py`, lines 66-95)

The similarity lookup against Neo4j is the external boundary: `lookup`
maps a `(label, text_field)` target to either its result rows or the
exception its `session.run` raised. -/

/-- One row of a vector-index query. -/
structure VRow where
  text : Option String := Option.none
  label : String := ""
  score : Rat := 0
  description : Option String := Option.none
deriving DecidableEq

/-- The result dict appended per row: `text` is `r["text"] or
r["description"]` with Python falsiness. -/
def vrowResult (r : VRow) : Result :=
  { source := "vector", label := r.label, score := r.score,
    text :=
      match r.text with
      | some s => if s = "" then r.description else some s
      | Option.none => r.description }

/-- The four `(label, text_field)` targets of `vector_search`. -/
def VECTOR_TARGETS : List (String × String) :=
  [("Service", "serviceName"), ("Charge", "chargeDescription"),
   ("FOCUSColumn", "description"), ("AllocationMethod", "description")]

/-- The per-target loop: a raised lookup is caught (`except Exception:
pass`) and contributes no rows. -/
def collectTargets (lookup : String × String → Except Unit (List VRow)) :
    List (String × String) → List Result
  | [] => []
  | t :: ts =>
    (match lookup t with
     | .ok rows => rows.map vrowResult
     | .error _ => []) ++ collectTargets lookup ts

/-- The vector-search dedup loop (lines 90-94): unconditional on text,
every unseen key is recorded. -/
def dedupVector : List Result → List String → List Result
  | [], _ => []
  | r :: rs, seen =>
    if seen.contains (key100 r) then dedupVector rs seen
    else r :: dedupVector rs (key100 r :: seen)

/-- Embedding of `vector_search`: collect per-target rows, sort by descending score,
dedup by 100-character key, truncate to `top_k`. -/
def vector_search (lookup : String × String → Except Unit (List VRow))
    (top_k : Nat) : List Result :=
  (dedupVector (sortDesc (collectTargets lookup VECTOR_TARGETS)) []).take top_k

/-! ### Graph search (`src/rag/pipeline.py`, lines 100-192)

Each query family sends one fixed Cypher aggregation to Neo4j and formats
the returned rows.  The store is the external boundary: a `GraphDB` value
records, per family, the rows the corresponding `session.run` yields (for
the first family, keyed by the interpolated provider filter). -/

structure CostRow where
  service : String
  category : String
  provider : String
  total_cost : Rat
  records : Nat
deriving DecidableEq

structure ProdRow where
  service : String
  provider : String
  total_cost : Rat
  count : Nat
deriving DecidableEq

structure StorageRow where
  provider : String
  total_cost : Rat
  records : Nat
  services : List String
deriving DecidableEq

structure PurchaseRow where
  provider : String
  billed : Rat
  effective : Rat
  count : Nat
deriving DecidableEq

structure FocusRow where
  name : String
  description : String
  standard : String
deriving DecidableEq

structure ChargeCatRow where
  category : String
  provider : String
  total : Rat
  billed : Rat
deriving DecidableEq

/-- The rows the graph store returns to each of the six query families. -/
structure GraphDB where
  topServiceRows : String → List CostRow := fun _ => []
  prodRows : List ProdRow := []
  storageRows : List StorageRow := []
  purchaseRows : List PurchaseRow := []
  focusRows : List FocusRow := []
  chargeCatRows : List ChargeCatRow := []

/-- Provider filter interpolated into the first family's Cypher
(lines 105-109). -/
def providerFilter (entities : List (String × Bool)) : String :=
  if entGet entities "aws" && !entGet entities "azure" then
    "AND cr.source = " ++ sq ++ "aws" ++ sq
  else if entGet entities "azure" && !entGet entities "aws" then
    "AND cr.source = " ++ sq ++ "azure" ++ sq
  else ""

/-- Snippet of the top-services family, fixed score 0.9 (lines 118-122). -/
def costSnippet (r : CostRow) : Result :=
  { source := "graph", path := "CostRecord->Resource->Service",
    score := mkRat 9 10,
    text := some ("Service " ++ sq ++ r.service ++ sq ++ " (" ++ r.category
      ++ ") on " ++ upper r.provider ++ ": total cost $"
      ++ fmtFixed 4 r.total_cost ++ " across " ++ toString r.records
      ++ " records") }

/-- Snippet of the production-tag family, fixed score 0.85
(lines 133-137). -/
def prodSnippet (r : ProdRow) : Result :=
  { source := "graph", path := "CostRecord[env=prod]->Resource->Service",
    score := mkRat 85 100,
    text := some ("Production tag: " ++ sq ++ r.service ++ sq ++ " on "
      ++ upper r.provider ++ " costs $" ++ fmtFixed 4 r.total_cost ++ " ("
      ++ toString r.count ++ " records)") }

/-- Snippet of the storage family, fixed score 0.88 (lines 147-151). -/
def storageSnippet (r : StorageRow) : Result :=
  { source := "graph", path := "CostRecord->Resource->Service[Storage]",
    score := mkRat 88 100,
    text := some ("Storage on " ++ upper r.provider ++ ": $"
      ++ fmtFixed 4 r.total_cost ++ " total, " ++ toString r.records
      ++ " records. Services: " ++ joinSep ", " r.services) }

/-- The double-counting warning sentence of the commitment family. -/
def DOUBLE_COUNT_WARNING : String :=
  "WARNING: Including Purchase charges with Usage causes double-counting."

/-- Snippet of the commitment/purchase family, fixed score 0.95
(lines 161-166). -/
def purchaseSnippet (r : PurchaseRow) : Result :=
  { source := "graph", path := "CostRecord[Purchase]->Charge",
    score := mkRat 95 100,
    text := some (("Commitment purchases on " ++ upper r.provider
      ++ ": Billed=$" ++ fmtFixed 2 r.billed ++ ", Effective=$"
      ++ fmtFixed 2 r.effective ++ ". ") ++ DOUBLE_COUNT_WARNING) }

/-- Snippet of the schema/glossary family, fixed score 0.92
(lines 174-177). -/
def focusSnippet (r : FocusRow) : Result :=
  { source := "graph", path := "FOCUSColumn", score := mkRat 92 100,
    text := some ("[" ++ r.standard ++ "] " ++ r.name ++ ": "
      ++ r.description) }

/-- Snippet of the charge-category family, fixed score 0.87
(lines 186-190). -/
def chargeCatSnippet (r : ChargeCatRow) : Result :=
  { source := "graph", path := "CostRecord->Charge[category]",
    score := mkRat 87 100,
    text := some ("Charge category " ++ sq ++ r.category ++ sq ++ " on "
      ++ upper r.provider ++ ": EffectiveCost=$" ++ fmtFixed 4 r.total
      ++ ", BilledCost=$" ++ fmtFixed 4 r.billed) }

/-- Embedding of `graph_search`: the six intent/entity-gated families in source order,
their outputs concatenated. -/
def graph_search (db : GraphDB) (entities : List (String × Bool))
    (intents : List String) : List Result :=
  (if intents.contains "cost_analysis"
      || intents.contains "service_comparison" then
    (db.topServiceRows (providerFilter entities)).map costSnippet
  else []) ++
  (if entGet entities "production" || intents.contains "tag_query" then
    db.prodRows.map prodSnippet
  else []) ++
  (if entGet entities "storage" || intents.contains "service_comparison" then
    db.storageRows.map storageSnippet
  else []) ++
  (if intents.contains "commitment_analysis" then
    db.purchaseRows.map purchaseSnippet
  else []) ++
  (if intents.contains "schema_query" then
    db.focusRows.map focusSnippet
  else []) ++
  (if intents.contains "cost_analysis"
      || intents.contains "commitment_analysis" then
    db.chargeCatRows.map chargeCatSnippet
  else [])

/-! ### Orchestrator (`src/rag/pipeline.py`, lines 333-359)

`CloudCostRAG.query` calls `vector_search` inside `try/except`
(`vecOutcome` is that call's outcome), always runs `graph_search`,
assembles the context, substitutes the placeholder when the context is
empty, and invokes the generation capability `gen` (the `call_llm`
boundary) with the question and the context. -/

def NO_DATA_PLACEHOLDER : String :=
  "No relevant data found in the knowledge graph for this query."

structure RagOutput where
  answer : String
  intents : List String
  entities : List (String × Bool)
  vector_results : List Result
  graph_results : List Result
  context : String
  retrieval_method : String
deriving DecidableEq

/-- The vector result list `CloudCostRAG.query` proceeds with: the
successful call's value, or `[]` when `vector_search` raised
(lines 337-341). -/
def ragVectorResults (vecOutcome : Except Unit (List Result)) :
    List Result :=
  match vecOutcome with
  | .ok v => v
  | .error _ => []

/-- The graph result list of `CloudCostRAG.query` (line 343). -/
def ragGraphResults (db : GraphDB) (question : String) : List Result :=
  graph_search db (extract_entities question) (extract_intent question)

/-- The context `CloudCostRAG.query` hands to `call_llm`: the assembled
context, or the "no data" placeholder when it is empty (lines 344-347). -/
def ragContext (vecOutcome : Except Unit (List Result)) (db : GraphDB)
    (question : String) : String :=
  if assemble_context (ragVectorResults vecOutcome)
      (ragGraphResults db question) = "" then
    NO_DATA_PLACEHOLDER
  else
    assemble_context (ragVectorResults vecOutcome)
      (ragGraphResults db question)

/-- Embedding of `CloudCostRAG.query`. -/
def ragQuery (gen : String → String → String)
    (vecOutcome : Except Unit (List Result)) (db : GraphDB)
    (question : String) : RagOutput :=
  ⟨gen question (ragContext vecOutcome db question),
    extract_intent question,
    extract_entities question,
    ragVectorResults vecOutcome,
    ragGraphResults db question,
    ragContext vecOutcome db question,
    "hybrid (vector=" ++ toString (ragVectorResults vecOutcome).length
      ++ ", graph=" ++ toString (ragGraphResults db question).length ++ ")"⟩

/-! ### Schema layer (`src/graph/schema.py`)

The store's state is abstracted to what the schema operations can touch:
the node/relationship population and the declared constraint and index
names.  Every `CREATE ... IF NOT EXISTS` is an idempotent name insertion;
`clear_database` is the only operation that deletes. -/

structure GraphStoreState where
  nodes : List String := []
  rels : List (String × String × String) := []
  constraints : List String := []
  indexes : List String := []
  vectorIndexes : List String := []
deriving DecidableEq

/-- Cypher `CREATE ... IF NOT EXISTS`: add a name unless already present. -/
def addIfAbsent (xs : List String) (x : String) : List String :=
  if xs.contains x then xs else xs ++ [x]

def CONSTRAINT_NAMES : List String :=
  ["billing_account_id", "sub_account_id", "service_name", "region_id",
   "resource_id", "billing_period_start"]

def INDEX_NAMES : List String :=
  ["service_name_idx", "charge_period_idx", "service_category_idx",
   "resource_type_idx", "charge_category_idx", "cost_record_source_idx",
   "tag_key_idx", "charge_description_ft", "service_fulltext",
   "resource_fulltext"]

def VECTOR_INDEX_NAMES : List String :=
  ["cost_record_embedding", "service_embedding", "charge_embedding",
   "location_embedding"]

/-- Embedding of `setup_constraints`. -/
def setup_constraints (g : GraphStoreState) : GraphStoreState :=
  ⟨g.nodes, g.rels, CONSTRAINT_NAMES.foldl addIfAbsent g.constraints,
    g.indexes, g.vectorIndexes⟩

/-- Embedding of `setup_indexes` (standard plus full-text indexes). -/
def setup_indexes (g : GraphStoreState) : GraphStoreState :=
  ⟨g.nodes, g.rels, g.constraints, INDEX_NAMES.foldl addIfAbsent g.indexes,
    g.vectorIndexes⟩

/-- Embedding of `setup_vector_indexes`. -/
def setup_vector_indexes (g : GraphStoreState) : GraphStoreState :=
  ⟨g.nodes, g.rels, g.constraints, g.indexes,
    VECTOR_INDEX_NAMES.foldl addIfAbsent g.vectorIndexes⟩

/-- Embedding of `clear_database(driver, confirm=False)`: without `confirm=True` it
only prints and returns; with it, `MATCH (n) DETACH DELETE n`. -/
def clear_database (g : GraphStoreState) (confirm : Bool := false) :
    GraphStoreState :=
  if !confirm then g
  else ⟨[], [], g.constraints, g.indexes, g.vectorIndexes⟩

/-- Embedding of `run_setup`: connectivity check, then the three setup passes; on a
failed connection it returns without touching the store. -/
def run_setup (connected : Bool) (g : GraphStoreState) : GraphStoreState :=
  if !connected then g
  else setup_vector_indexes (setup_indexes (setup_constraints g))

/-! ## Theorems -/

/-- C2: the intent/entity extractor is a pure, deterministic function of
the query string — two calls on the same query return equal results — and
on "Compare storage costs between AWS and Azure" the intents contain
`service_comparison` and the entity map contains the keys `aws`, `azure`
and `storage` (each mapped to `True`). -/
theorem C2_extractor_deterministic_and_comparison_query :
    (∀ q : String, extract_intent q = extract_intent q ∧
      extract_entities q = extract_entities q) ∧
    "service_comparison" ∈
      extract_intent "Compare storage costs between AWS and Azure" ∧
    ("aws", true) ∈
      extract_entities "Compare storage costs between AWS and Azure" ∧
    ("azure", true) ∈
      extract_entities "Compare storage costs between AWS and Azure" ∧
    ("storage", true) ∈
      extract_entities "Compare storage costs between AWS and Azure" :=
  ⟨fun _ => ⟨rfl, rfl⟩, by decide, by decide, by decide, by decide⟩

/-- C10: every entry of the entity map has its value `True` and its key
among the six fixed entity flags; an undetected entity is simply absent
rather than mapped to `False`. -/
theorem C10_entity_map_keys_and_values :
    ∀ q : String, ∀ kv ∈ extract_entities q,
      kv.2 = true ∧
      kv.1 ∈ ["aws", "azure", "compute", "storage", "production",
        "charge_purchase"] := by
  intro q kv hkv
  unfold extract_entities at hkv
  rw [List.mem_map] at hkv
  obtain ⟨kp, hkp, rfl⟩ := hkv
  refine ⟨rfl, ?_⟩
  have hmem := List.mem_of_mem_filter hkp
  fin_cases hmem <;> simp

/-- Witness for C10 at the query "Find AWS compute services". -/
theorem C10_entity_map_keys_and_values_witness :
    (("aws", true) : String × Bool).2 = true ∧
    (("aws", true) : String × Bool).1 ∈
      ["aws", "azure", "compute", "storage", "production",
        "charge_purchase"] :=
  C10_entity_map_keys_and_values "Find AWS compute services" ("aws", true)
    (by decide)

/-- C9: `make_id` joins the truthy parts with a pipe and keeps the first
16 characters of the hex digest, so it depends only on the truthy
components — argument lists agreeing after dropping falsy components get
the same identifier. -/
theorem C9_make_id_truthy_components :
    (∀ (md5hex : String → String) (parts : List PyVal),
      make_id md5hex parts =
        sliceTo 16 (md5hex (joinSep "|" ((parts.filter isTruthy).map pyStr)))) ∧
    (∀ (md5hex : String → String) (ps qs : List PyVal),
      ps.filter isTruthy = qs.filter isTruthy →
      make_id md5hex ps = make_id md5hex qs) :=
  ⟨fun _ _ => rfl, fun _ ps qs h => by unfold make_id; rw [h]⟩

/-- Witness for C9: a missing account id and an empty one give the same
identifier. -/
theorem C9_make_id_truthy_components_witness :
    make_id id [PyVal.str "aws", PyVal.none, PyVal.str "res1"] =
    make_id id [PyVal.str "aws", PyVal.str "", PyVal.str "res1"] :=
  C9_make_id_truthy_components.2 id
    [PyVal.str "aws", PyVal.none, PyVal.str "res1"]
    [PyVal.str "aws", PyVal.str "", PyVal.str "res1"] (by decide)

/-- C8: `clear_database` without `confirm=True` leaves the store
untouched, and `run_setup` (the only other schema-layer entry point,
composing the three setup passes) never deletes nodes or relationships. -/
theorem C8_clear_database_gated :
    (∀ g : GraphStoreState, clear_database g = g) ∧
    (∀ g : GraphStoreState,
      (setup_constraints g).nodes = g.nodes ∧
      (setup_constraints g).rels = g.rels ∧
      (setup_indexes g).nodes = g.nodes ∧
      (setup_indexes g).rels = g.rels ∧
      (setup_vector_indexes g).nodes = g.nodes ∧
      (setup_vector_indexes g).rels = g.rels) ∧
    (∀ (connected : Bool) (g : GraphStoreState),
      (run_setup connected g).nodes = g.nodes ∧
      (run_setup connected g).rels = g.rels) := by
  refine ⟨fun g => rfl, ?_, ?_⟩
  · intro g
    cases g
    exact ⟨rfl, rfl, rfl, rfl, rfl, rfl⟩
  · intro c g
    cases c <;> cases g <;> exact ⟨rfl, rfl⟩

/-- C6: `parse_tags` is total and yields the empty map on `None`, NaN,
the empty string, non-string payloads, strings the JSON decoder rejects,
and strings decoding to a non-dict; a string decoding to a dict yields
that dict. -/
theorem C6_parse_tags_total_empty_on_malformed :
    ∀ jloads : String → Except Unit Json,
      parse_tags jloads .none = [] ∧
      parse_tags jloads .nan = [] ∧
      parse_tags jloads (.str "") = [] ∧
      (∀ n : Int, parse_tags jloads (.int n) = []) ∧
      (∀ s, jloads (replaceChar sqc dqc s) = .error () →
        parse_tags jloads (.str s) = []) ∧
      (∀ s j, jloads (replaceChar sqc dqc s) = .ok j →
        (∀ m, j ≠ .obj m) → parse_tags jloads (.str s) = []) ∧
      (∀ s m, s ≠ "" → jloads (replaceChar sqc dqc s) = .ok (.obj m) →
        parse_tags jloads (.str s) = m) := by
  intro jloads
  refine ⟨rfl, rfl, rfl, ?_, ?_, ?_, ?_⟩
  · intro n
    unfold parse_tags
    rcases Decidable.em (n = 0) with h | h <;> simp [isTruthy, h]
  · intro s h
    unfold parse_tags
    rcases Decidable.em (s = "") with hs | hs
    · simp [hs, isTruthy]
    · simp [isTruthy, hs, h]
  · intro s j hj hnot
    unfold parse_tags
    rcases Decidable.em (s = "") with hs | hs
    · simp [hs, isTruthy]
    · cases j with
      | obj m => exact absurd rfl (hnot m)
      | arr l => simp [isTruthy, hs, hj]
      | str t => simp [isTruthy, hs, hj]
      | num q => simp [isTruthy, hs, hj]
      | bool b => simp [isTruthy, hs, hj]
      | null => simp [isTruthy, hs, hj]
  · intro s m hs hj
    unfold parse_tags
    simp [isTruthy, hs, hj]

/-- Witness for C6: a decoder failure on a malformed payload yields the
empty map. -/
theorem C6_parse_tags_total_empty_on_malformed_witness :
    parse_tags (fun _ => .error ()) (.str "not json at all") = [] :=
  (C6_parse_tags_total_empty_on_malformed (fun _ => .error ())).2.2.2.2.1
    "not json at all" rfl

/-- Evaluation of `safe_float` at a cell accepted by `cellNonNeg` yields
a float satisfying Python's `>= 0.0`. -/
theorem safe_float_nonneg (v : PyVal) (h : cellNonNeg v = true) :
    (safe_float v).isNonNeg = true := by
  cases v with
  | int n =>
      have hn : (0 : Int) ≤ n := by simpa [cellNonNeg] using h
      have hq : (0 : Rat) ≤ (n : Rat) := by exact_mod_cast hn
      simp [safe_float, PyFloat.isNonNeg, hq]
  | float q =>
      have hq : (0 : Rat) ≤ q := by simpa [cellNonNeg] using h
      simp [safe_float, PyFloat.isNonNeg, hq]
  | str s =>
      unfold safe_float
      unfold cellNonNeg at h
      cases hp : pyFloatOfString s with
      | none => simp [hp, PyFloat.isNonNeg]
      | some f =>
          simp [hp] at h ⊢
          exact h
  | nan => simp [safe_float, PyFloat.isNonNeg]
  | none => simp [safe_float, PyFloat.isNonNeg]
  | bool b => cases b <;> simp [safe_float, PyFloat.isNonNeg]

/-- C1 counterexample: a row whose `EffectiveCost` is the number `-1`
yields a fact node storing exactly `-1`, and one whose `EffectiveCost` is
the string `"-1e5"` (scientific notation accepted by `float()`) yields a
fact node storing exactly `-100000` — in both cases the stored cost fails
`>= 0`; `safe_float` only maps *invalid* values to `0.0` and passes
negative numbers through. -/
theorem C1_negative_cost_counterexample :
    (create_cost_record_props id
        { EffectiveCost := PyVal.float (mkRat (-1) 1) } 0).effectiveCost =
      PyFloat.finite (mkRat (-1) 1) ∧
    ((create_cost_record_props id
        { EffectiveCost := PyVal.float (mkRat (-1) 1) }
        0).effectiveCost).isNonNeg = false ∧
    (create_cost_record_props id
        { EffectiveCost := PyVal.str "-1e5" } 0).effectiveCost =
      PyFloat.finite (mkRat (-100000) 1) ∧
    ((create_cost_record_props id
        { EffectiveCost := PyVal.str "-1e5" }
        0).effectiveCost).isNonNeg = false := by
  refine ⟨by decide, by decide, by decide, by decide⟩

/-- C1 amended: every cost attribute written on the fact node equals
`safe_float` of the corresponding row field — `0.0` for missing, NaN or
non-numeric fields, the exact value for numeric fields (scientific
notation and underscore forms included), and the corresponding non-finite
float for `inf`/`nan` strings.  The attribute therefore satisfies
`>= 0.0` for every row none of whose cost fields is a negative number, a
negative numeric string, a negative-infinity string, or a NaN string; a
negative numeric field is stored unchanged. -/
theorem C1_cost_attrs_nonneg_amended :
    ∀ (md5hex : String → String) (row : Row) (idx : Nat),
      cellNonNeg row.EffectiveCost = true →
      cellNonNeg row.BilledCost = true →
      cellNonNeg row.ListCost = true →
      cellNonNeg row.ContractedCost = true →
      (create_cost_record_props md5hex row idx).effectiveCost =
          safe_float row.EffectiveCost ∧
      (create_cost_record_props md5hex row idx).billedCost =
          safe_float row.BilledCost ∧
      (create_cost_record_props md5hex row idx).listCost =
          safe_float row.ListCost ∧
      (create_cost_record_props md5hex row idx).contractedCost =
          safe_float row.ContractedCost ∧
      ((create_cost_record_props md5hex row idx).effectiveCost).isNonNeg
        = true ∧
      ((create_cost_record_props md5hex row idx).billedCost).isNonNeg
        = true ∧
      ((create_cost_record_props md5hex row idx).listCost).isNonNeg
        = true ∧
      ((create_cost_record_props md5hex row idx).contractedCost).isNonNeg
        = true :=
  fun _ _ _ h1 h2 h3 h4 =>
    ⟨rfl, rfl, rfl, rfl, safe_float_nonneg _ h1, safe_float_nonneg _ h2,
      safe_float_nonneg _ h3, safe_float_nonneg _ h4⟩

/-- Witness for C1 at a row with a positive cost, a missing cost, a NaN
cost and a scientific-notation string cost. -/
theorem C1_cost_attrs_nonneg_amended_witness :
    (create_cost_record_props id
        { EffectiveCost := PyVal.int 2, BilledCost := PyVal.none,
          ListCost := PyVal.nan, ContractedCost := PyVal.str "4.5e1" }
        0).effectiveCost =
      safe_float (PyVal.int 2) ∧
    (create_cost_record_props id
        { EffectiveCost := PyVal.int 2, BilledCost := PyVal.none,
          ListCost := PyVal.nan, ContractedCost := PyVal.str "4.5e1" }
        0).billedCost =
      safe_float PyVal.none ∧
    (create_cost_record_props id
        { EffectiveCost := PyVal.int 2, BilledCost := PyVal.none,
          ListCost := PyVal.nan, ContractedCost := PyVal.str "4.5e1" }
        0).listCost =
      safe_float PyVal.nan ∧
    (create_cost_record_props id
        { EffectiveCost := PyVal.int 2, BilledCost := PyVal.none,
          ListCost := PyVal.nan, ContractedCost := PyVal.str "4.5e1" }
        0).contractedCost =
      safe_float (PyVal.str "4.5e1") ∧
    ((create_cost_record_props id
        { EffectiveCost := PyVal.int 2, BilledCost := PyVal.none,
          ListCost := PyVal.nan, ContractedCost := PyVal.str "4.5e1" }
        0).effectiveCost).isNonNeg = true ∧
    ((create_cost_record_props id
        { EffectiveCost := PyVal.int 2, BilledCost := PyVal.none,
          ListCost := PyVal.nan, ContractedCost := PyVal.str "4.5e1" }
        0).billedCost).isNonNeg = true ∧
    ((create_cost_record_props id
        { EffectiveCost := PyVal.int 2, BilledCost := PyVal.none,
          ListCost := PyVal.nan, ContractedCost := PyVal.str "4.5e1" }
        0).listCost).isNonNeg = true ∧
    ((create_cost_record_props id
        { EffectiveCost := PyVal.int 2, BilledCost := PyVal.none,
          ListCost := PyVal.nan, ContractedCost := PyVal.str "4.5e1" }
        0).contractedCost).isNonNeg = true :=
  C1_cost_attrs_nonneg_amended id
    { EffectiveCost := PyVal.int 2, BilledCost := PyVal.none,
      ListCost := PyVal.nan, ContractedCost := PyVal.str "4.5e1" } 0
    (by decide) (by decide) (by decide) (by decide)

/-- C4 counterexample: on two empty result lists the context assembler
itself returns the empty string, not the "no data" placeholder (the
placeholder is substituted later, by the orchestrator). -/
theorem C4_assembler_empty_counterexample :
    assemble_context [] [] = "" ∧
    assemble_context [] [] ≠ NO_DATA_PLACEHOLDER :=
  ⟨rfl, by decide⟩

/-- C4 amended: `assemble_context` returns the empty string when both
result lists are empty; it is the orchestrator (`CloudCostRAG.query`) that
replaces an empty context with the explicit "no data" placeholder, and the
generation capability is still invoked with that placeholder rather than
being skipped. -/
theorem C4_placeholder_reaches_generation_amended :
    ∀ (gen : String → String → String) (db : GraphDB) (q : String),
      graph_search db (extract_entities q) (extract_intent q) = [] →
      assemble_context [] [] = "" ∧
      (ragQuery gen (.ok []) db q).context = NO_DATA_PLACEHOLDER ∧
      (ragQuery gen (.ok []) db q).answer = gen q NO_DATA_PLACEHOLDER := by
  intro gen db q h
  have hctx : ragContext (.ok []) db q = NO_DATA_PLACEHOLDER := by
    unfold ragContext ragGraphResults ragVectorResults
    rw [h]
    rfl
  refine ⟨rfl, ?_, ?_⟩
  · simp only [ragQuery]
    exact hctx
  · simp only [ragQuery]
    rw [hctx]

/-- Witness for C4 on an empty graph store. -/
theorem C4_placeholder_reaches_generation_amended_witness :
    assemble_context [] [] = "" ∧
    (ragQuery (fun _ c => c) (.ok []) {} "hello").context =
      NO_DATA_PLACEHOLDER ∧
    (ragQuery (fun _ c => c) (.ok []) {} "hello").answer =
      (fun (_ c : String) => c) "hello" NO_DATA_PLACEHOLDER :=
  C4_placeholder_reaches_generation_amended (fun _ c => c) {} "hello"
    (by decide)

/-- The per-target collection loop of `vector_search`, treating a raised
target lookup exactly as an empty row list. -/
theorem collectTargets_error_eq_empty
    (lookup : String × String → Except Unit (List VRow))
    (t : String × String) (h : lookup t = .error ()) :
    ∀ ts : List (String × String),
      collectTargets lookup ts =
        collectTargets (fun u => if u = t then .ok [] else lookup u) ts := by
  intro ts
  induction ts with
  | nil => rfl
  | cons u us ih =>
      unfold collectTargets
      rw [ih]
      rcases Decidable.em (u = t) with hu | hu
      · subst hu
        simp [h]
      · simp [hu]

/-- C5: a per-target failure inside `vector_search` only suppresses that
target's rows (the other targets are still queried with the same result),
and a failure of the whole vector-search call makes `CloudCostRAG.query`
proceed with an empty vector result list — graph retrieval, context
assembly and generation still run. -/
theorem C5_retrieval_failure_isolated :
    (∀ (lookup : String × String → Except Unit (List VRow)) (top_k : Nat)
        (t : String × String),
      lookup t = .error () →
      vector_search lookup top_k =
        vector_search (fun u => if u = t then .ok [] else lookup u) top_k) ∧
    (∀ (gen : String → String → String) (db : GraphDB) (q : String),
      ragQuery gen (.error ()) db q = ragQuery gen (.ok []) db q ∧
      (ragQuery gen (.error ()) db q).graph_results =
        graph_search db (extract_entities q) (extract_intent q) ∧
      (ragQuery gen (.error ()) db q).answer =
        gen q (ragQuery gen (.error ()) db q).context) := by
  constructor
  · intro lookup top_k t h
    unfold vector_search
    rw [collectTargets_error_eq_empty lookup t h]
  · intro gen db q
    have hv : ragVectorResults (.error ()) = ragVectorResults (.ok []) := rfl
    refine ⟨?_, ?_, ?_⟩
    · unfold ragQuery ragContext
      rw [hv]
    · simp only [ragQuery, ragGraphResults]
    · simp only [ragQuery]

/-- Witness for C5: with every lookup failing, zeroing out the first
target changes nothing. -/
theorem C5_retrieval_failure_isolated_witness :
    vector_search (fun _ => .error ()) 10 =
      vector_search
        (fun u => if u = ("Service", "serviceName") then .ok []
          else (fun _ => .error ()) u) 10 :=
  C5_retrieval_failure_isolated.1 (fun _ => .error ()) 10
    ("Service", "serviceName") rfl

/-- Membership in a stable descending insertion. -/
theorem mem_insertDesc {x r : Result} {l : List Result} :
    x ∈ insertDesc r l ↔ x = r ∨ x ∈ l := by
  induction l with
  | nil => simp [insertDesc]
  | cons y ys ih =>
      unfold insertDesc
      split
      · simp [or_comm, or_left_comm]
      · simp [ih, or_comm, or_left_comm]

/-- Inserting into a descending-sorted list keeps it sorted. -/
theorem insertDesc_pairwise {r : Result} {l : List Result}
    (h : l.Pairwise (fun a b => b.score ≤ a.score)) :
    (insertDesc r l).Pairwise (fun a b => b.score ≤ a.score) := by
  induction l with
  | nil => simp [insertDesc]
  | cons y ys ih =>
      rw [List.pairwise_cons] at h
      obtain ⟨hy, hys⟩ := h
      unfold insertDesc
      split
      · rename_i hge
        refine List.Pairwise.cons ?_ (List.Pairwise.cons hy hys)
        intro b hb
        rcases List.mem_cons.mp hb with rfl | hb'
        · exact hge
        · exact le_trans (hy b hb') hge
      · rename_i hlt
        refine List.Pairwise.cons ?_ (ih hys)
        intro b hb
        rcases mem_insertDesc.mp hb with rfl | hb'
        · exact le_of_not_le hlt
        · exact hy b hb'

/-- The stable descending sort is sorted: scores are non-increasing. -/
theorem sortDesc_pairwise (l : List Result) :
    (sortDesc l).Pairwise (fun a b => b.score ≤ a.score) := by
  induction l with
  | nil => simp [sortDesc]
  | cons x xs ih =>
      unfold sortDesc
      exact insertDesc_pairwise ih

/-- The stable descending sort permutes the input (membership form). -/
theorem mem_sortDesc {x : Result} {l : List Result} :
    x ∈ sortDesc l ↔ x ∈ l := by
  induction l with
  | nil => simp [sortDesc]
  | cons y ys ih =>
      unfold sortDesc
      rw [mem_insertDesc]
      simp [ih]

/-- The assembler's dedup pass selects a sublist of its input. -/
theorem dedupAssemble_sublist :
    ∀ (l : List Result) (seen : List String),
      List.Sublist (dedupAssemble l seen) l := by
  intro l
  induction l with
  | nil => intro seen; simp [dedupAssemble]
  | cons r rs ih =>
      intro seen
      unfold dedupAssemble
      split
      · exact List.Sublist.cons₂ r (ih _)
      · exact List.Sublist.cons r (ih _)

/-- The dedup pass never emits a key in `seen`, and emits pairwise
distinct keys. -/
theorem dedupAssemble_keys :
    ∀ (l : List Result) (seen : List String),
      (∀ r ∈ dedupAssemble l seen, key100 r ∉ seen) ∧
      (dedupAssemble l seen).Pairwise
        (fun a b => key100 a ≠ key100 b) := by
  intro l
  induction l with
  | nil => intro seen; constructor <;> simp [dedupAssemble]
  | cons r rs ih =>
      intro seen
      unfold dedupAssemble
      split
      · rename_i hguard
        rw [Bool.and_eq_true, Bool.not_eq_true'] at hguard
        have hnotseen : key100 r ∉ seen := by
          intro hmem
          have helem := List.elem_eq_true_of_mem hmem
          have hcont : seen.contains (key100 r) = true := helem
          rw [hguard.1] at hcont
          exact Bool.false_ne_true hcont
        constructor
        · intro x hx
          rcases List.mem_cons.mp hx with rfl | hx'
          · exact hnotseen
          · intro hmem
            exact (ih (key100 r :: seen)).1 x hx'
              (List.mem_cons_of_mem _ hmem)
        · refine List.Pairwise.cons ?_ (ih (key100 r :: seen)).2
          intro b hb heq
          exact (ih (key100 r :: seen)).1 b hb
            (heq ▸ List.mem_cons_self _ _)
      · exact ih seen

/-- The rendered entries are score-sorted (non-increasing). -/
theorem assembledEntries_pairwise_score (v g : List Result) :
    (assembledEntries v g).Pairwise (fun a b => b.score ≤ a.score) :=
  ((sortDesc_pairwise (v ++ g)).sublist
      (dedupAssemble_sublist (sortDesc (v ++ g)) [])).sublist
    (List.take_sublist 20 _)

/-- The rendered entries carry pairwise distinct dedup keys. -/
theorem assembledEntries_pairwise_keys (v g : List Result) :
    (assembledEntries v g).Pairwise (fun a b => key100 a ≠ key100 b) :=
  ((dedupAssemble_keys (sortDesc (v ++ g)) []).2).sublist
    (List.take_sublist 20 _)

/-- Every rendered entry comes from one of the two input lists. -/
theorem assembledEntries_mem {r : Result} {v g : List Result}
    (h : r ∈ assembledEntries v g) : r ∈ v ++ g := by
  have h1 : r ∈ dedupAssemble (sortDesc (v ++ g)) [] :=
    (List.take_sublist 20 _).mem h
  have h2 : r ∈ sortDesc (v ++ g) :=
    (dedupAssemble_sublist (sortDesc (v ++ g)) []).mem h1
  exact mem_sortDesc.mp h2

/-- C3: the context assembler renders at most 20 entries, no two of them
share the 100-character normalized text prefix, their scores are
non-increasing, each entry comes from the concatenated inputs, and the
rendered context is exactly the numbered rendering of those entries. -/
theorem C3_assembler_dedup_sorted_bounded :
    ∀ v g : List Result,
      (assembledEntries v g).length ≤ 20 ∧
      (assembledEntries v g).Pairwise
        (fun a b => key100 a ≠ key100 b) ∧
      (assembledEntries v g).Pairwise (fun a b => b.score ≤ a.score) ∧
      (∀ r ∈ assembledEntries v g, r ∈ v ++ g) ∧
      assemble_context v g =
        joinSep "\n\n" (renderFrom 1 (assembledEntries v g)) :=
  fun v g =>
    ⟨List.length_take_le 20 _, assembledEntries_pairwise_keys v g,
      assembledEntries_pairwise_score v g,
      fun _ h => assembledEntries_mem h, rfl⟩

/-- Witness for C3 at a one-element vector result list. -/
theorem C3_assembler_dedup_sorted_bounded_witness :
    (⟨"vector", "", "Service", some "S3 object storage",
        mkRat 1 2⟩ : Result) ∈
      ([(⟨"vector", "", "Service", some "S3 object storage",
          mkRat 1 2⟩ : Result)] ++ []) :=
  (C3_assembler_dedup_sorted_bounded
      [⟨"vector", "", "Service", some "S3 object storage", mkRat 1 2⟩]
      []).2.2.2.1
    ⟨"vector", "", "Service", some "S3 object storage", mkRat 1 2⟩
    (by decide)

/-- A literal occurs as a substring of anything it suffixes. -/
theorem containsSub_append_self (n pre : List Char) :
    containsSub n (pre ++ n) = true := by
  unfold containsSub
  rw [List.any_eq_true]
  refine ⟨pre.length, ?_, ?_⟩
  · rw [List.mem_range, List.length_append]
    omega
  · unfold substrAt
    rw [List.drop_left]
    rw [List.isPrefixOf_iff_prefix]

/-- Appending the double-counting warning never yields the empty
string. -/
theorem append_warning_ne_empty (x : String) :
    x ++ DOUBLE_COUNT_WARNING ≠ "" := by
  intro h
  have hdata : (x ++ DOUBLE_COUNT_WARNING).data = ("" : String).data := by
    rw [h]
  rw [String.data_append] at hdata
  have : DOUBLE_COUNT_WARNING.data = [] := (List.append_eq_nil.mp hdata).2
  exact absurd this (by decide)

/-- In a descending-sorted list, an entry with strictly larger score sits
strictly earlier. -/
theorem sorted_score_index_lt {l : List Result}
    (hp : l.Pairwise (fun a b => b.score ≤ a.score))
    (i j : Fin l.length) (hij : (l.get j).score < (l.get i).score) :
    i < j := by
  rcases lt_trichotomy i j with h | h | h
  · exact h
  · rw [h] at hij
    exact absurd hij (lt_irrefl _)
  · have := List.pairwise_iff_get.mp hp j i h
    exact absurd (lt_of_lt_of_le hij this) (lt_irrefl _)

/-- C7: when the intents include `commitment_analysis` and the
Purchase-charge aggregation returns rows, `graph_search` emits a snippet
carrying the double-counting warning at fixed score 0.95, and among the
assembled context entries every 0.95-scored snippet precedes every
generic cost-summary snippet (fixed scores 0.9, 0.88, 0.87, 0.85). -/
theorem C7_double_counting_warning_ranked_first :
    ∀ (db : GraphDB) (entities : List (String × Bool))
      (intents : List String),
      intents.contains "commitment_analysis" = true →
      db.purchaseRows ≠ [] →
      (∃ r ∈ graph_search db entities intents,
        r.score = mkRat 95 100 ∧
        containsSub DOUBLE_COUNT_WARNING.data (pyOrS r.text "").data =
          true) ∧
      (∀ (v : List Result)
        (i j : Fin (assembledEntries v (graph_search db entities
          intents)).length),
        ((assembledEntries v (graph_search db entities intents)).get
          i).score = mkRat 95 100 →
        (((assembledEntries v (graph_search db entities intents)).get
            j).score = mkRat 9 10 ∨
         ((assembledEntries v (graph_search db entities intents)).get
            j).score = mkRat 88 100 ∨
         ((assembledEntries v (graph_search db entities intents)).get
            j).score = mkRat 87 100 ∨
         ((assembledEntries v (graph_search db entities intents)).get
            j).score = mkRat 85 100) →
        i < j) := by
  intro db entities intents hc hrows
  constructor
  · obtain ⟨p, ps, hps⟩ := List.exists_cons_of_ne_nil hrows
    refine ⟨purchaseSnippet p, ?_, rfl, ?_⟩
    · have hmem4 : purchaseSnippet p ∈ db.purchaseRows.map purchaseSnippet := by
        rw [hps]
        exact List.mem_map_of_mem purchaseSnippet (List.mem_cons_self p ps)
      unfold graph_search
      rw [if_pos hc]
      simp only [List.mem_append]
      tauto
    · have htext : (purchaseSnippet p).text =
          some (("Commitment purchases on " ++ upper p.provider
            ++ ": Billed=$" ++ fmtFixed 2 p.billed ++ ", Effective=$"
            ++ fmtFixed 2 p.effective ++ ". ") ++ DOUBLE_COUNT_WARNING) :=
        rfl
      rw [htext]
      simp only [pyOrS]
      rw [if_neg (append_warning_ne_empty _)]
      rw [String.data_append]
      exact containsSub_append_self DOUBLE_COUNT_WARNING.data _
  · intro v i j hi hj
    refine sorted_score_index_lt (assembledEntries_pairwise_score _ _)
      i j ?_
    rw [hi]
    rcases hj with h | h | h | h <;> rw [h] <;> decide

/-- Witness for C7 at a one-row Purchase aggregation. -/
theorem C7_double_counting_warning_ranked_first_witness :
    ∃ r ∈ graph_search
        { purchaseRows := [⟨"aws", mkRat 31 10, mkRat 2 1, 3⟩] } []
        ["commitment_analysis"],
      r.score = mkRat 95 100 ∧
      containsSub DOUBLE_COUNT_WARNING.data (pyOrS r.text "").data =
        true :=
  (C7_double_counting_warning_ranked_first
      { purchaseRows := [⟨"aws", mkRat 31 10, mkRat 2 1, 3⟩] } []
      ["commitment_analysis"] (by decide) (by decide)).1

end CloudCost
